import Mathlib

/-!
Shallow embedding of wlroots' `src/types/wlr_xdg_shell.c` (xdg-shell
server-side protocol handler).  C structs become Lean structures, the
protocol handlers become pure functions from an explicit state to the
new state plus the visible effects (posted protocol errors, emitted
signals, wire messages).  `uint32_t` fields are modelled as `Nat`,
`int32_t` fields as `Int`.  List heads correspond to `wl_list` heads:
`wl_list_insert(list.prev, e)` appends at the tail, so queue order in
the Lean lists is oldest-first, and pushing onto a grab chain with
`wl_list_insert(&list, e)` prepends at the head.
-/

/-- Mirrors `struct wlr_box`. -/
structure WlrBox where
  x : Int
  y : Int
  width : Int
  height : Int
deriving Repr, DecidableEq

/-- Protocol error codes posted by this file (`xdg_wm_base`, `xdg_surface`,
`xdg_positioner`, `xdg_popup` error enums). -/
inductive XdgErr where
  | role
  | invalidPositioner
  | notTheTopmostPopup
  | invalidSurfaceState
  | notConstructed
  | unconfiguredBuffer
  | positionerInvalidInput
  | popupInvalidGrab
deriving Repr, DecidableEq

/-- Mirrors `enum xdg_positioner_anchor`. -/
inductive XdgPositionerAnchor where
  | anchorNone
  | top
  | bottom
  | left
  | right
  | topLeft
  | bottomLeft
  | topRight
  | bottomRight
deriving Repr, DecidableEq

/-- Mirrors `enum xdg_positioner_gravity`. -/
inductive XdgPositionerGravity where
  | gravityNone
  | top
  | bottom
  | left
  | right
  | topLeft
  | bottomLeft
  | topRight
  | bottomRight
deriving Repr, DecidableEq

/-- Mirrors `struct wlr_xdg_positioner` (file-local struct in the source). -/
structure WlrXdgPositioner where
  anchor_rect : WlrBox
  anchor : XdgPositionerAnchor
  gravity : XdgPositionerGravity
  constraint_adjustment : Nat
  size_width : Int
  size_height : Int
  offset_x : Int
  offset_y : Int
deriving Repr, DecidableEq

/-- Mirrors `xdg_positioner_get_geometry`: start from `(offset, size)`,
shift by the anchor point of `anchor_rect`, then shift against gravity.
The constraint-adjustment hook returns the geometry unchanged in this
core, exactly as the source does. -/
def xdg_positioner_get_geometry (p : WlrXdgPositioner) : WlrBox :=
  let g : WlrBox :=
    { x := p.offset_x, y := p.offset_y,
      width := p.size_width, height := p.size_height }
  let g : WlrBox :=
    { g with y := g.y +
        (match p.anchor with
          | .top | .topLeft | .topRight => p.anchor_rect.y
          | .bottom | .bottomLeft | .bottomRight =>
              p.anchor_rect.y + p.anchor_rect.height
          | _ => p.anchor_rect.y + p.anchor_rect.height / 2) }
  let g : WlrBox :=
    { g with x := g.x +
        (match p.anchor with
          | .left | .topLeft | .bottomLeft => p.anchor_rect.x
          | .right | .topRight | .bottomRight =>
              p.anchor_rect.x + p.anchor_rect.width
          | _ => p.anchor_rect.x + p.anchor_rect.width / 2) }
  let g : WlrBox :=
    { g with y := g.y -
        (match p.gravity with
          | .top | .topLeft | .topRight => g.height
          | .bottom | .bottomLeft | .bottomRight => 0
          | _ => g.height / 2) }
  let g : WlrBox :=
    { g with x := g.x -
        (match p.gravity with
          | .left | .topLeft | .bottomLeft => g.width
          | .right | .topRight | .bottomRight => 0
          | _ => g.width / 2) }
  g

/-- Mirrors `struct wlr_xdg_toplevel_state`: the per-snapshot toplevel
state (`current` / `next` / `pending`).  Flag order in the struct follows
the header; `width`/`height` are `uint32_t`, the size bounds `uint32_t`
as well. -/
structure WlrXdgToplevelState where
  maximized : Bool
  fullscreen : Bool
  resizing : Bool
  activated : Bool
  width : Nat
  height : Nat
  max_width : Nat
  max_height : Nat
  min_width : Nat
  min_height : Nat
deriving Repr, DecidableEq

/-- Mirrors `struct wlr_xdg_surface_configure`: one queued configure,
a serial plus the toplevel-state snapshot captured at send time. -/
structure WlrXdgSurfaceConfigure where
  serial : Nat
  state : WlrXdgToplevelState
deriving Repr, DecidableEq

/-- Mirrors `struct wlr_xdg_toplevel` (role substate): the three state
snapshots plus the `added` flag distinguishing the initial configure. -/
structure WlrXdgToplevel where
  current : WlrXdgToplevelState
  next : WlrXdgToplevelState
  pending : WlrXdgToplevelState
  added : Bool
deriving Repr, DecidableEq

/-- Mirrors `enum wlr_xdg_surface_role`. -/
inductive WlrXdgSurfaceRole where
  | roleNone
  | toplevel
  | popup
deriving Repr, DecidableEq

/-- Mirrors the parts of `struct wlr_xdg_surface` that the configure /
commit machinery touches.  `configure_idle` is `true` when an idle
send-configure task is armed; `configure_list` is ordered oldest-first
(the list head of the `wl_list`).  `surface_current_width/height` are the
underlying `wlr_surface`'s `current->width/height`; `popup_committed`
is the popup substate's `committed` flag. -/
structure WlrXdgSurface where
  role : WlrXdgSurfaceRole
  configured : Bool
  added : Bool
  configure_serial : Nat
  configure_next_serial : Nat
  configure_idle : Bool
  configure_list : List WlrXdgSurfaceConfigure
  geometry : WlrBox
  next_geometry : WlrBox
  has_next_geometry : Bool
  toplevel_state : WlrXdgToplevel
  popup_committed : Bool
  surface_current_width : Nat
  surface_current_height : Nat
deriving Repr, DecidableEq

/-- Mirrors `wlr_xdg_toplevel_ack_configure`: copy the queued snapshot
into `next` and zero `pending.(width,height)`. -/
def wlr_xdg_toplevel_ack_configure (t : WlrXdgToplevel)
    (configure : WlrXdgSurfaceConfigure) : WlrXdgToplevel :=
  { t with next := configure.state,
           pending := { t.pending with width := 0, height := 0 } }

/-- The queue walk inside `xdg_surface_ack_configure`: entries with a
smaller serial are removed and freed, a matching entry is dequeued and
returned, an entry with a greater serial stops the walk. -/
def ack_walk (serial : Nat) :
    List WlrXdgSurfaceConfigure →
      Option WlrXdgSurfaceConfigure × List WlrXdgSurfaceConfigure
  | [] => (Option.none, [])
  | c :: rest =>
    if c.serial < serial then ack_walk serial rest
    else if c.serial = serial then (Option.some c, rest)
    else (Option.none, c :: rest)

/-- Outcome of a request handler: the protocol error it posted, if any,
together with the updated surface. -/
structure AckResult where
  err : Option XdgErr
  surface : WlrXdgSurface
deriving Repr, DecidableEq

/-- Mirrors `xdg_surface_ack_configure`. -/
def xdg_surface_ack_configure (surface : WlrXdgSurface) (serial : Nat) :
    AckResult :=
  if surface.role = .roleNone then
    { err := Option.some .notConstructed, surface := surface }
  else
    match ack_walk serial surface.configure_list with
    | (Option.none, rest) =>
      { err := Option.some .invalidSurfaceState,
        surface := { surface with configure_list := rest } }
    | (Option.some configure, rest) =>
      let surface :=
        match surface.role with
        | .toplevel =>
          { surface with toplevel_state :=
              wlr_xdg_toplevel_ack_configure surface.toplevel_state configure }
        | _ => surface
      { err := Option.none,
        surface := { surface with
          configure_list := rest,
          configured := true,
          configure_serial := serial } }

/-- An all-zero toplevel snapshot, i.e. the `calloc`-initial value. -/
def ts0 : WlrXdgToplevelState :=
  { maximized := false, fullscreen := false, resizing := false,
    activated := false, width := 0, height := 0,
    max_width := 0, max_height := 0, min_width := 0, min_height := 0 }

/-- The `calloc`-initial toplevel role substate. -/
def tl0 : WlrXdgToplevel :=
  { current := ts0, next := ts0, pending := ts0, added := false }

/-- The all-zero box. -/
def box0 : WlrBox := { x := 0, y := 0, width := 0, height := 0 }

/-- The role-independent state a fresh `xdg_surface` starts with in
`xdg_shell_get_xdg_surface` (everything `calloc`-zeroed, empty queue). -/
def initial_xdg_surface : WlrXdgSurface :=
  { role := .roleNone, configured := false, added := false,
    configure_serial := 0, configure_next_serial := 0,
    configure_idle := false, configure_list := [],
    geometry := box0, next_geometry := box0, has_next_geometry := false,
    toplevel_state := tl0, popup_committed := false,
    surface_current_width := 0, surface_current_height := 0 }

lemma ack_walk_not_found (S : Nat) (q : List WlrXdgSurfaceConfigure)
    (h : ∀ c ∈ q, c.serial ≠ S) :
    ack_walk S q =
      (Option.none, q.dropWhile (fun c => decide (c.serial < S))) := by
  induction q with
  | nil => simp [ack_walk]
  | cons a rest ih =>
    by_cases ha : a.serial < S
    · have := ih (fun c hc => h c (List.mem_cons_of_mem a hc))
      simp [ack_walk, ha, this, List.dropWhile]
    · have hne : ¬ a.serial = S := h a (List.mem_cons_self a rest)
      simp [ack_walk, ha, hne, List.dropWhile]

lemma ack_walk_found (S : Nat) (q : List WlrXdgSurfaceConfigure)
    (hp : q.Pairwise (fun a b => a.serial < b.serial))
    (c : WlrXdgSurfaceConfigure) (hc : c ∈ q) (hs : c.serial = S) :
    ∃ pre suf, q = pre ++ c :: suf ∧ (∀ d ∈ pre, d.serial < S) ∧
      ack_walk S q = (Option.some c, suf) := by
  induction q with
  | nil => cases hc
  | cons a rest ih =>
    rcases List.mem_cons.mp hc with rfl | hmem
    · refine ⟨[], rest, rfl, by simp, ?_⟩
      simp [ack_walk, hs]
    · have halt : a.serial < S := by
        have := (List.pairwise_cons.mp hp).1 c hmem
        omega
      obtain ⟨pre, suf, hq, hpre, hwalk⟩ :=
        ih (List.pairwise_cons.mp hp).2 hmem
      refine ⟨a :: pre, suf, by simp [hq], ?_, ?_⟩
      · intro d hd
        rcases List.mem_cons.mp hd with rfl | hd
        · exact halt
        · exact hpre d hd
      · simp [ack_walk, halt, hwalk]

/-- C1: for a surface with a role, `ack_configure(S)` drops exactly the
queue entries smaller than `S` (the walk stops at the first entry that is
not smaller); if no entry has serial `S`, `INVALID_SURFACE_STATE` is
posted and the queue is left at the `dropWhile` remainder, the rest of
the surface untouched; if an entry with serial `S` exists, it is
dequeued, every entry before it was smaller, no error is posted, and the
surface ends configured with `configure_serial = S`. -/
theorem xdg_surface_ack_configure_spec (surface : WlrXdgSurface) (S : Nat)
    (hrole : surface.role ≠ .roleNone)
    (hsorted : surface.configure_list.Pairwise
      (fun a b => a.serial < b.serial)) :
    ((∀ c ∈ surface.configure_list, c.serial ≠ S) →
      (xdg_surface_ack_configure surface S).err =
        Option.some XdgErr.invalidSurfaceState ∧
      (xdg_surface_ack_configure surface S).surface =
        { surface with configure_list := surface.configure_list.dropWhile (fun c => decide (c.serial < S)) }) ∧
    (∀ c ∈ surface.configure_list, c.serial = S →
      ∃ pre suf, surface.configure_list = pre ++ c :: suf ∧
        (∀ d ∈ pre, d.serial < S) ∧
        (xdg_surface_ack_configure surface S).err = Option.none ∧
        (xdg_surface_ack_configure surface S).surface.configure_list = suf ∧
        (xdg_surface_ack_configure surface S).surface.configured = true ∧
        (xdg_surface_ack_configure surface S).surface.configure_serial = S ∧
        (surface.role = .toplevel →
          (xdg_surface_ack_configure surface S).surface.toplevel_state.next
              = c.state ∧
          (xdg_surface_ack_configure surface
            S).surface.toplevel_state.pending.width = 0 ∧
          (xdg_surface_ack_configure surface
            S).surface.toplevel_state.pending.height = 0)) := by
  constructor
  · intro hnone
    have hw := ack_walk_not_found S surface.configure_list hnone
    simp [xdg_surface_ack_configure, hrole, hw]
  · intro c hc hs
    obtain ⟨pre, suf, hq, hpre, hwalk⟩ :=
      ack_walk_found S surface.configure_list hsorted c hc hs
    refine ⟨pre, suf, hq, hpre, ?_⟩
    cases hr : surface.role with
    | roleNone => exact absurd hr hrole
    | toplevel =>
      simp [xdg_surface_ack_configure, hrole, hwalk, hr,
        wlr_xdg_toplevel_ack_configure]
    | popup =>
      simp [xdg_surface_ack_configure, hrole, hwalk, hr]

/-- A toplevel surface with outstanding configure serials `[1,2,3]`. -/
def ack_demo_surface : WlrXdgSurface :=
  { initial_xdg_surface with
      role := .toplevel,
      configure_list := [⟨1, ts0⟩, ⟨2, ts0⟩, ⟨3, ts0⟩] }

/-- A toplevel surface with the single outstanding configure serial `5`. -/
def ack_demo_surface_stale : WlrXdgSurface :=
  { initial_xdg_surface with
      role := .toplevel,
      configure_list := [⟨5, ts0⟩] }

/-- C1 witness: acking `2` on queue `[1,2,3]` drops `1`, dequeues `2`,
keeps `3`, and configures the surface; acking `4` on queue `[5]` posts
`INVALID_SURFACE_STATE`. -/
theorem xdg_surface_ack_configure_spec_witness :
    ((xdg_surface_ack_configure ack_demo_surface 2).surface.configured
        = true ∧
      (xdg_surface_ack_configure ack_demo_surface 2).surface.configure_list
        = [⟨3, ts0⟩]) ∧
    (xdg_surface_ack_configure ack_demo_surface_stale 4).err =
      Option.some XdgErr.invalidSurfaceState := by
  constructor
  · obtain ⟨pre, suf, hq, hpre, herr, hlist, hconf, hser, htl⟩ :=
      (xdg_surface_ack_configure_spec ack_demo_surface 2
        (by decide) (by decide)).2 ⟨2, ts0⟩ (by decide) rfl
    refine ⟨hconf, ?_⟩
    have hq' : ack_demo_surface.configure_list =
        [⟨1, ts0⟩, ⟨2, ts0⟩, ⟨3, ts0⟩] := rfl
    rw [hq'] at hq
    have hpre1 : pre = [⟨1, ts0⟩] ∧ suf = [⟨3, ts0⟩] := by
      rcases pre with _ | ⟨a, _ | ⟨b, rest⟩⟩
      · simp_all
      · simp_all
      · simp only [List.cons_append, List.cons.injEq] at hq
        obtain ⟨-, hb, -⟩ := hq
        have hb2 : b.serial < 2 := hpre b (by simp)
        rw [← hb] at hb2
        exact absurd hb2 (by decide)
    rw [hlist, hpre1.2]
  · exact ((xdg_surface_ack_configure_spec ack_demo_surface_stale 4
      (by decide) (by decide)).1 (by decide)).1

/-- Mirrors `wlr_xdg_surface_toplevel_state_compare`: decides whether the
pending toplevel state equals the authoritative snapshot (the last queued
configure, or `current` plus the underlying surface's dimensions when the
queue is empty).  The source assigns BOTH `configured.width` and
`configured.height` from `state->base->surface->current->width` in the
empty-queue branch; this embedding reproduces that line faithfully. -/
def wlr_xdg_surface_toplevel_state_compare (surface : WlrXdgSurface) : Bool :=
  let state := surface.toplevel_state
  if ¬ surface.configured then false
  else
    let configured_triple :=
      match surface.configure_list.getLast? with
      | Option.none =>
        (state.current, surface.surface_current_width,
          surface.surface_current_width)
      | Option.some configure =>
        (configure.state, configure.state.width, configure.state.height)
    let cstate := configured_triple.1
    let cwidth := configured_triple.2.1
    let cheight := configured_triple.2.2
    if state.pending.activated ≠ cstate.activated then false
    else if state.pending.fullscreen ≠ cstate.fullscreen then false
    else if state.pending.maximized ≠ cstate.maximized then false
    else if state.pending.resizing ≠ cstate.resizing then false
    else if state.pending.width = cwidth ∧ state.pending.height = cheight then
      true
    else if state.pending.width = 0 ∧ state.pending.height = 0 then true
    else false

/-- The `pending_same` computation at the top of
`wlr_xdg_surface_schedule_configure`: role dispatch, `false` for popups. -/
def schedule_pending_same (surface : WlrXdgSurface) : Bool :=
  match surface.role with
  | .toplevel => wlr_xdg_surface_toplevel_state_compare surface
  | _ => false

/-- Result of `wlr_xdg_surface_schedule_configure`: the returned serial
and the updated surface. -/
structure ScheduleResult where
  serial : Nat
  surface : WlrXdgSurface
deriving Repr, DecidableEq

/-- Mirrors `wlr_xdg_surface_schedule_configure`.  `fresh` stands for
`wl_display_next_serial(display)`, drawn only in the branch that
schedules a new idle task. -/
def wlr_xdg_surface_schedule_configure (surface : WlrXdgSurface)
    (fresh : Nat) : ScheduleResult :=
  let pending_same := schedule_pending_same surface
  if surface.configure_idle then
    if ¬ pending_same then
      { serial := surface.configure_next_serial, surface := surface }
    else
      { serial := 0, surface := { surface with configure_idle := false } }
  else
    if pending_same then
      { serial := 0, surface := surface }
    else
      { serial := fresh,
        surface := { surface with
          configure_next_serial := fresh, configure_idle := true } }

/-- C2: `schedule_configure` on a role-bearing surface: with an idle task
armed it returns the reserved serial and changes nothing when the pending
state differs, and cancels the task returning 0 when it does not; with no
idle task armed it returns 0 and enqueues nothing when the pending state
matches, and otherwise reserves the fresh serial, arms exactly one idle
task and returns that serial. -/
theorem wlr_xdg_surface_schedule_configure_spec (surface : WlrXdgSurface)
    (fresh : Nat) (_hrole : surface.role ≠ .roleNone) :
    (surface.configure_idle = true → schedule_pending_same surface = false →
      (wlr_xdg_surface_schedule_configure surface fresh).serial =
        surface.configure_next_serial ∧
      (wlr_xdg_surface_schedule_configure surface fresh).surface = surface) ∧
    (surface.configure_idle = true → schedule_pending_same surface = true →
      (wlr_xdg_surface_schedule_configure surface fresh).serial = 0 ∧
      (wlr_xdg_surface_schedule_configure surface fresh).surface =
        { surface with configure_idle := false }) ∧
    (surface.configure_idle = false → schedule_pending_same surface = true →
      (wlr_xdg_surface_schedule_configure surface fresh).serial = 0 ∧
      (wlr_xdg_surface_schedule_configure surface fresh).surface = surface) ∧
    (surface.configure_idle = false → schedule_pending_same surface = false →
      (wlr_xdg_surface_schedule_configure surface fresh).serial = fresh ∧
      (wlr_xdg_surface_schedule_configure surface fresh).surface =
        { surface with
          configure_next_serial := fresh, configure_idle := true }) := by
  refine ⟨?_, ?_, ?_, ?_⟩ <;> intro hidle hsame <;>
    simp [wlr_xdg_surface_schedule_configure, hidle, hsame]

/-- A toplevel surface with an idle task armed for serial 7 and a pending
state that differs from the authoritative snapshot. -/
def sched_demo_idle : WlrXdgSurface :=
  { initial_xdg_surface with
      role := .toplevel,
      configure_idle := true,
      configure_next_serial := 7 }

/-- A configured toplevel surface whose pending state equals the
authoritative snapshot (empty queue, pending = current, zero sizes). -/
def sched_demo_same : WlrXdgSurface :=
  { initial_xdg_surface with
      role := .toplevel,
      configured := true }

/-- C2 witness: the four branches of `schedule_configure` at concrete
surfaces. -/
theorem wlr_xdg_surface_schedule_configure_spec_witness :
    ((wlr_xdg_surface_schedule_configure sched_demo_idle 9).serial = 7 ∧
      (wlr_xdg_surface_schedule_configure sched_demo_idle 9).surface =
        sched_demo_idle) ∧
    (wlr_xdg_surface_schedule_configure
        { sched_demo_same with configure_idle := true } 9).serial = 0 ∧
    ((wlr_xdg_surface_schedule_configure sched_demo_same 9).serial = 0 ∧
      (wlr_xdg_surface_schedule_configure sched_demo_same 9).surface =
        sched_demo_same) ∧
    (wlr_xdg_surface_schedule_configure
        { sched_demo_same with configured := false } 9).serial = 9 := by
  refine ⟨?_, ?_, ?_, ?_⟩
  · exact (wlr_xdg_surface_schedule_configure_spec sched_demo_idle 9
      (by decide)).1 (by decide) (by decide)
  · exact ((wlr_xdg_surface_schedule_configure_spec
      { sched_demo_same with configure_idle := true } 9
      (by decide)).2.1 (by decide) (by decide)).1
  · exact (wlr_xdg_surface_schedule_configure_spec sched_demo_same 9
      (by decide)).2.2.1 (by decide) (by decide)
  · exact ((wlr_xdg_surface_schedule_configure_spec
      { sched_demo_same with configured := false } 9
      (by decide)).2.2.2 (by decide) (by decide)).1

/-- A configured toplevel surface with an empty configure queue whose
underlying surface is 100 pixels wide and 50 pixels high, and whose
pending size is exactly those dimensions, all flags matching `current`. -/
def compare_demo_surface : WlrXdgSurface :=
  { initial_xdg_surface with
      role := .toplevel,
      configured := true,
      surface_current_width := 100,
      surface_current_height := 50,
      toplevel_state :=
        { tl0 with pending := { ts0 with width := 100, height := 50 } } }

/-- C3: the pending-same comparison at a configured toplevel with an
empty queue whose pending size equals the underlying surface's actual
`(width, height) = (100, 50)` and whose flags match `current` returns
`false`, because the source reads the height of the authoritative
snapshot from `surface->current->width`; the claim (and spec section 9,
which calls this line out as an apparent bug) expects the comparison
against the surface's actual height, hence `true`. -/
theorem wlr_xdg_surface_toplevel_state_compare_height_bug :
    wlr_xdg_surface_toplevel_state_compare compare_demo_surface = false ∧
    compare_demo_surface.configured = true ∧
    compare_demo_surface.configure_list = [] ∧
    compare_demo_surface.toplevel_state.pending.width =
      compare_demo_surface.surface_current_width ∧
    compare_demo_surface.toplevel_state.pending.height =
      compare_demo_surface.surface_current_height ∧
    compare_demo_surface.toplevel_state.pending.activated =
      compare_demo_surface.toplevel_state.current.activated ∧
    compare_demo_surface.toplevel_state.pending.fullscreen =
      compare_demo_surface.toplevel_state.current.fullscreen ∧
    compare_demo_surface.toplevel_state.pending.maximized =
      compare_demo_surface.toplevel_state.current.maximized ∧
    compare_demo_surface.toplevel_state.pending.resizing =
      compare_demo_surface.toplevel_state.current.resizing := by
  decide

/-- `enum xdg_toplevel_state` values used by `send_configure`. -/
def XDG_TOPLEVEL_STATE_MAXIMIZED : Nat := 1
/-- `XDG_TOPLEVEL_STATE_FULLSCREEN`. -/
def XDG_TOPLEVEL_STATE_FULLSCREEN : Nat := 2
/-- `XDG_TOPLEVEL_STATE_RESIZING`. -/
def XDG_TOPLEVEL_STATE_RESIZING : Nat := 3
/-- `XDG_TOPLEVEL_STATE_ACTIVATED`. -/
def XDG_TOPLEVEL_STATE_ACTIVATED : Nat := 4

/-- The wire message emitted by `xdg_toplevel_send_configure`: width,
height, and the `uint32[]` states array. -/
structure ToplevelConfigureMsg where
  width : Nat
  height : Nat
  states : List Nat
deriving Repr, DecidableEq

/-- Mirrors `wlr_xdg_toplevel_send_configure` (the success path, without
the allocation-failure bailout): the states array is built by appending
MAXIMIZED, FULLSCREEN, RESIZING, ACTIVATED in that order for the flags
set in `pending`; the sent size is `pending.(width,height)` unless
`width == 0 || height == 0`, in which case both fall back to the
committed window geometry (an `int32_t` read into a `uint32_t`). -/
def wlr_xdg_toplevel_send_configure (surface : WlrXdgSurface) :
    ToplevelConfigureMsg :=
  let pending := surface.toplevel_state.pending
  let states : List Nat :=
    (if pending.maximized then [XDG_TOPLEVEL_STATE_MAXIMIZED] else []) ++
    (if pending.fullscreen then [XDG_TOPLEVEL_STATE_FULLSCREEN] else []) ++
    (if pending.resizing then [XDG_TOPLEVEL_STATE_RESIZING] else []) ++
    (if pending.activated then [XDG_TOPLEVEL_STATE_ACTIVATED] else [])
  let fallback := pending.width = 0 ∨ pending.height = 0
  let width :=
    if fallback then (surface.geometry.width % (2 ^ 32 : Int)).toNat
    else pending.width
  let height :=
    if fallback then (surface.geometry.height % (2 ^ 32 : Int)).toNat
    else pending.height
  { width := width, height := height, states := states }

/-- Whether `enum xdg_toplevel_state` value `s` is set in `pending`. -/
def toplevel_state_flag (pending : WlrXdgToplevelState) : Nat → Bool
  | 1 => pending.maximized
  | 2 => pending.fullscreen
  | 3 => pending.resizing
  | 4 => pending.activated
  | _ => false

/-- A toplevel surface with pending size `(0, 5)` and committed window
geometry `(7, 9)`. -/
def send_demo_surface : WlrXdgSurface :=
  { initial_xdg_surface with
      role := .toplevel,
      geometry := { x := 0, y := 0, width := 7, height := 9 },
      toplevel_state :=
        { tl0 with pending := { ts0 with width := 0, height := 5 } } }

/-- C4 counterexample: with pending `(w,h) = (0,5)` — not `(0,0)` — the
configure still falls back to the window geometry `(7,9)` instead of
sending the pending size, because the source tests
`width == 0 || height == 0`, not both-zero. -/
theorem wlr_xdg_toplevel_send_configure_zero_counterexample :
    (wlr_xdg_toplevel_send_configure send_demo_surface).width = 7 ∧
    (wlr_xdg_toplevel_send_configure send_demo_surface).height = 9 ∧
    ¬(send_demo_surface.toplevel_state.pending.width = 0 ∧
      send_demo_surface.toplevel_state.pending.height = 0) := by
  decide

/-- C4 amended: `send_configure` emits exactly the pending flags, in the
order MAXIMIZED, FULLSCREEN, RESIZING, ACTIVATED, and the sent `(w,h)`
falls back to the committed window geometry exactly when `pending.width`
is 0 OR `pending.height` is 0 (both dimensions replaced together);
otherwise it is the pending size. -/
theorem wlr_xdg_toplevel_send_configure_amended (surface : WlrXdgSurface) :
    (wlr_xdg_toplevel_send_configure surface).states =
      [XDG_TOPLEVEL_STATE_MAXIMIZED, XDG_TOPLEVEL_STATE_FULLSCREEN,
        XDG_TOPLEVEL_STATE_RESIZING, XDG_TOPLEVEL_STATE_ACTIVATED].filter
        (toplevel_state_flag surface.toplevel_state.pending) ∧
    (surface.toplevel_state.pending.width = 0 ∨
        surface.toplevel_state.pending.height = 0 →
      (wlr_xdg_toplevel_send_configure surface).width =
        (surface.geometry.width % (2 ^ 32 : Int)).toNat ∧
      (wlr_xdg_toplevel_send_configure surface).height =
        (surface.geometry.height % (2 ^ 32 : Int)).toNat) ∧
    (¬(surface.toplevel_state.pending.width = 0 ∨
        surface.toplevel_state.pending.height = 0) →
      (wlr_xdg_toplevel_send_configure surface).width =
        surface.toplevel_state.pending.width ∧
      (wlr_xdg_toplevel_send_configure surface).height =
        surface.toplevel_state.pending.height) := by
  refine ⟨?_, ?_, ?_⟩
  · cases hm : surface.toplevel_state.pending.maximized <;>
    cases hf : surface.toplevel_state.pending.fullscreen <;>
    cases hr : surface.toplevel_state.pending.resizing <;>
    cases ha : surface.toplevel_state.pending.activated <;>
      simp [wlr_xdg_toplevel_send_configure, toplevel_state_flag,
        hm, hf, hr, ha, List.filter,
        XDG_TOPLEVEL_STATE_MAXIMIZED, XDG_TOPLEVEL_STATE_FULLSCREEN,
        XDG_TOPLEVEL_STATE_RESIZING, XDG_TOPLEVEL_STATE_ACTIVATED]
  · intro h
    simp [wlr_xdg_toplevel_send_configure, h]
  · intro h
    simp [wlr_xdg_toplevel_send_configure, h]

/-- A toplevel surface with maximized and activated pending flags and
pending size `(3,4)`. -/
def send_demo_surface_flags : WlrXdgSurface :=
  { initial_xdg_surface with
      role := .toplevel,
      toplevel_state :=
        { tl0 with
            pending :=
              { ts0 with
                  maximized := true, activated := true,
                  width := 3, height := 4 } } }

/-- C4 amended witness: a surface with maximized and activated pending
and pending size `(3,4)` sends states `[MAXIMIZED, ACTIVATED]` and size
`(3,4)`; the surface with pending `(0,5)` and geometry `(7,9)` sends
`(7,9)`. -/
theorem wlr_xdg_toplevel_send_configure_amended_witness :
    (wlr_xdg_toplevel_send_configure send_demo_surface_flags).states
        = [1, 4] ∧
    (wlr_xdg_toplevel_send_configure send_demo_surface_flags).width = 3 ∧
    (wlr_xdg_toplevel_send_configure send_demo_surface).width = 7 := by
  refine ⟨?_, ?_, ?_⟩
  · have h := (wlr_xdg_toplevel_send_configure_amended
      send_demo_surface_flags).1
    rw [h]
    decide
  · exact ((wlr_xdg_toplevel_send_configure_amended
      send_demo_surface_flags).2.2 (by decide)).1
  · exact ((wlr_xdg_toplevel_send_configure_amended
      send_demo_surface).2.1 (by decide)).1

/-- Mirrors `wlr_xdg_surface_toplevel_committed`: on the very first
commit (no buffer, not yet added) schedule the initial configure and
mark the toplevel added; later buffer-less commits are ignored; a commit
with a buffer copies `next` into `current`. -/
def wlr_xdg_surface_toplevel_committed (surface : WlrXdgSurface)
    (has_buffer : Bool) (fresh : Nat) : WlrXdgSurface :=
  if !has_buffer && !surface.toplevel_state.added then
    let r := wlr_xdg_surface_schedule_configure surface fresh
    { r.surface with
        toplevel_state := { r.surface.toplevel_state with added := true } }
  else if !has_buffer then surface
  else
    { surface with
        toplevel_state := { surface.toplevel_state with
          current := surface.toplevel_state.next } }

/-- Mirrors `wlr_xdg_surface_popup_committed`: the first commit schedules
the initial configure and marks the popup committed. -/
def wlr_xdg_surface_popup_committed (surface : WlrXdgSurface)
    (fresh : Nat) : WlrXdgSurface :=
  if !surface.popup_committed then
    let r := wlr_xdg_surface_schedule_configure surface fresh
    { r.surface with popup_committed := true }
  else surface

/-- Outcome of the commit notification: posted error (if any), updated
surface, and whether the shell's `new_surface` signal fired. -/
structure CommitResult where
  err : Option XdgErr
  surface : WlrXdgSurface
  new_surface_emitted : Bool
deriving Repr, DecidableEq

/-- Mirrors `handle_wlr_surface_committed`: reject a buffer on a
never-configured surface, drain the double-buffered window geometry,
dispatch per role (role `NONE` posts `NOT_CONSTRUCTED` and falls
through), then emit `new_surface` once the surface is configured. -/
def handle_wlr_surface_committed (surface : WlrXdgSurface)
    (has_buffer : Bool) (fresh : Nat) : CommitResult :=
  if has_buffer && !surface.configured then
    { err := Option.some .unconfiguredBuffer, surface := surface,
      new_surface_emitted := false }
  else
    let surface :=
      if surface.has_next_geometry then
        { surface with
            has_next_geometry := false, geometry := surface.next_geometry }
      else surface
    let role_result : Option XdgErr × WlrXdgSurface :=
      match surface.role with
      | .roleNone => (Option.some .notConstructed, surface)
      | .toplevel =>
        (Option.none,
          wlr_xdg_surface_toplevel_committed surface has_buffer fresh)
      | .popup =>
        (Option.none, wlr_xdg_surface_popup_committed surface fresh)
    let err := role_result.1
    let surface := role_result.2
    if surface.configured && !surface.added then
      { err := err, surface := { surface with added := true },
        new_surface_emitted := true }
    else
      { err := err, surface := surface, new_surface_emitted := false }

/-- Mirrors the buffer check in `xdg_shell_get_xdg_surface`: a base
surface that already has a buffer is rejected with
`UNCONFIGURED_BUFFER` and no xdg_surface is created; otherwise the
fresh role-less surface is returned. -/
def xdg_shell_get_xdg_surface (base_has_buffer : Bool) :
    Except XdgErr WlrXdgSurface :=
  if base_has_buffer then Except.error .unconfiguredBuffer
  else Except.ok initial_xdg_surface

lemma handle_committed_err (surface : WlrXdgSurface) (has_buffer : Bool)
    (fresh : Nat) :
    (handle_wlr_surface_committed surface has_buffer fresh).err =
      if has_buffer && !surface.configured then
        Option.some XdgErr.unconfiguredBuffer
      else
        match surface.role with
        | .roleNone => Option.some XdgErr.notConstructed
        | _ => Option.none := by
  unfold handle_wlr_surface_committed
  by_cases h : (has_buffer && !surface.configured) = true
  · simp [h]
  · cases hg : surface.has_next_geometry <;>
      cases hrole : surface.role <;>
        simp [h, hg, hrole] <;> split <;> rfl

/-- C5: `UNCONFIGURED_BUFFER` is posted in exactly two situations.
Committing posts it iff the commit carries a buffer while `configured`
is still false, and then the surface is untouched and no signal fires;
creating an xdg_surface posts it iff the base surface already has a
buffer, and then no surface is created (and the success case yields the
fresh initial surface).  `ack_configure` never posts it. -/
theorem unconfigured_buffer_spec :
    (∀ (surface : WlrXdgSurface) (has_buffer : Bool) (fresh : Nat),
      ((handle_wlr_surface_committed surface has_buffer fresh).err =
          Option.some XdgErr.unconfiguredBuffer ↔
        has_buffer = true ∧ surface.configured = false) ∧
      (has_buffer = true → surface.configured = false →
        (handle_wlr_surface_committed surface has_buffer fresh).surface =
          surface ∧
        (handle_wlr_surface_committed surface has_buffer
          fresh).new_surface_emitted = false)) ∧
    (∀ b : Bool,
      (xdg_shell_get_xdg_surface b =
          Except.error XdgErr.unconfiguredBuffer ↔ b = true) ∧
      (b = false → xdg_shell_get_xdg_surface b =
          Except.ok initial_xdg_surface)) ∧
    (∀ (surface : WlrXdgSurface) (serial : Nat),
      (xdg_surface_ack_configure surface serial).err ≠
        Option.some XdgErr.unconfiguredBuffer) := by
  refine ⟨?_, ?_, ?_⟩
  · intro surface has_buffer fresh
    constructor
    · rw [handle_committed_err]
      cases has_buffer <;> cases hc : surface.configured <;>
        cases hrole : surface.role <;> simp [hc, hrole]
    · intro hb hc
      simp [handle_wlr_surface_committed, hb, hc]
  · intro b
    cases b <;> simp [xdg_shell_get_xdg_surface]
  · intro surface serial
    unfold xdg_surface_ack_configure
    split
    · simp
    · rcases hw : ack_walk serial surface.configure_list with ⟨found, rest⟩
      rcases found with _ | c <;>
        rcases hrole : surface.role with _ | _ | _ <;> simp [hw, hrole]

/-- C5 witness: a commit carrying a buffer on a fresh (never configured)
toplevel posts `UNCONFIGURED_BUFFER` and leaves the surface unchanged;
creating an xdg_surface over a base surface that already has a buffer
fails the same way. -/
theorem unconfigured_buffer_spec_witness :
    (handle_wlr_surface_committed
        { initial_xdg_surface with role := .toplevel } true 5).err =
      Option.some XdgErr.unconfiguredBuffer ∧
    (handle_wlr_surface_committed
        { initial_xdg_surface with role := .toplevel } true 5).surface =
      { initial_xdg_surface with role := .toplevel } ∧
    xdg_shell_get_xdg_surface true =
      Except.error XdgErr.unconfiguredBuffer ∧
    xdg_shell_get_xdg_surface false = Except.ok initial_xdg_surface := by
  refine ⟨?_, ?_, ?_, ?_⟩
  · exact (unconfigured_buffer_spec.1
      { initial_xdg_surface with role := .toplevel } true 5).1.mpr
      ⟨rfl, rfl⟩
  · exact ((unconfigured_buffer_spec.1
      { initial_xdg_surface with role := .toplevel } true 5).2 rfl rfl).1
  · exact (unconfigured_buffer_spec.2.1 true).1.mpr rfl
  · exact (unconfigured_buffer_spec.2.1 false).2 rfl

/-- Mirrors the parts of `struct wlr_xdg_popup` the grab machinery
touches.  Surfaces are identified by `Nat` ids; `base` is the id of the
popup's own `wlr_xdg_surface`, `parent` the id of the parent surface,
`parent_is_toplevel` whether that parent's role is `TOPLEVEL`. -/
structure WlrXdgPopup where
  base : Nat
  parent : Nat
  parent_is_toplevel : Bool
  committed : Bool
  seat : Option Nat
deriving Repr, DecidableEq

/-- Mirrors `struct wlr_xdg_popup_grab` for one seat: the popup stack
(head = most recently inserted = topmost), the owning client, and
whether this chain's pointer/keyboard grab handlers currently occupy the
seat's grab slots. -/
structure WlrXdgPopupGrab where
  popups : List Nat
  client : Option Nat
  pointer_grab_active : Bool
  keyboard_grab_active : Bool
deriving Repr, DecidableEq

/-- Mirrors `xdg_popup_grab_get_topmost`: the base surface of the first
popup in the chain, or `NULL` when the chain is empty. -/
def xdg_popup_grab_get_topmost (grab : WlrXdgPopupGrab) : Option Nat :=
  grab.popups.head?

/-- Mirrors `xdg_popup_protocol_grab`.  `client` is the requesting
client's id, `seat` the seat the grab targets.  On failure the popup and
chain are untouched; on success the seat is recorded in the popup, the
popup is pushed on top of the chain, and both grab handlers are
installed. -/
def xdg_popup_protocol_grab (popup : WlrXdgPopup) (client seat : Nat)
    (grab : WlrXdgPopupGrab) :
    Except XdgErr (WlrXdgPopup × WlrXdgPopupGrab) :=
  if popup.committed then Except.error .popupInvalidGrab
  else
    let topmost := xdg_popup_grab_get_topmost grab
    if (topmost = Option.none ∧ ¬ popup.parent_is_toplevel) ∨
        (∃ t, topmost = Option.some t ∧ t ≠ popup.parent) then
      Except.error .notTheTopmostPopup
    else
      Except.ok
        ({ popup with seat := Option.some seat },
          { grab with
              client := Option.some client,
              popups := popup.base :: grab.popups,
              pointer_grab_active := true,
              keyboard_grab_active := true })

instance (popup : WlrXdgPopup) (grab : WlrXdgPopupGrab) :
    Decidable ((xdg_popup_grab_get_topmost grab = Option.none ∧
        ¬ popup.parent_is_toplevel) ∨
      (∃ t, xdg_popup_grab_get_topmost grab = Option.some t ∧
        t ≠ popup.parent)) := by
  rcases h : xdg_popup_grab_get_topmost grab with _ | t
  · simp [h]
    infer_instance
  · simp [h]
    infer_instance

/-- C6: `grab(seat, serial)` on a popup: posts `POPUP_INVALID_GRAB` and
changes nothing when the popup is already committed; posts
`NOT_THE_TOPMOST_POPUP` and changes nothing when the chain is non-empty
with a topmost other than the popup's parent, or empty with a
non-toplevel parent; otherwise records the seat, pushes the popup on
top of the chain, records the client, and installs the pointer and
keyboard grab handlers. -/
theorem xdg_popup_protocol_grab_spec (popup : WlrXdgPopup)
    (client seat : Nat) (grab : WlrXdgPopupGrab) :
    (popup.committed = true →
      xdg_popup_protocol_grab popup client seat grab =
        Except.error XdgErr.popupInvalidGrab) ∧
    (popup.committed = false →
      ((grab.popups = [] ∧ popup.parent_is_toplevel = false) ∨
        (∃ t rest, grab.popups = t :: rest ∧ t ≠ popup.parent) →
        xdg_popup_protocol_grab popup client seat grab =
          Except.error XdgErr.notTheTopmostPopup)) ∧
    (popup.committed = false →
      ((grab.popups = [] ∧ popup.parent_is_toplevel = true) ∨
        (∃ rest, grab.popups = popup.parent :: rest) →
        xdg_popup_protocol_grab popup client seat grab =
          Except.ok
            ({ popup with seat := Option.some seat },
              { grab with
                  client := Option.some client,
                  popups := popup.base :: grab.popups,
                  pointer_grab_active := true,
                  keyboard_grab_active := true }))) := by
  refine ⟨?_, ?_, ?_⟩
  · intro hc
    simp [xdg_popup_protocol_grab, hc]
  · intro hc hcase
    rcases hcase with ⟨hnil, hpar⟩ | ⟨t, rest, hcons, hne⟩
    · simp [xdg_popup_protocol_grab, xdg_popup_grab_get_topmost, hc,
        hnil, hpar]
    · simp [xdg_popup_protocol_grab, xdg_popup_grab_get_topmost, hc,
        hcons, hne]
  · intro hc hcase
    rcases hcase with ⟨hnil, hpar⟩ | ⟨rest, hcons⟩
    · simp [xdg_popup_protocol_grab, xdg_popup_grab_get_topmost, hc,
        hnil, hpar]
    · simp [xdg_popup_protocol_grab, xdg_popup_grab_get_topmost, hc,
        hcons]

/-- A popup surface 20 whose parent is toplevel surface 10. -/
def popup_p1 : WlrXdgPopup :=
  { base := 20, parent := 10, parent_is_toplevel := true,
    committed := false, seat := Option.none }

/-- A popup surface 30 whose parent is popup surface 20. -/
def popup_p2 : WlrXdgPopup :=
  { base := 30, parent := 20, parent_is_toplevel := false,
    committed := false, seat := Option.none }

/-- The empty grab chain for a seat. -/
def empty_grab : WlrXdgPopupGrab :=
  { popups := [], client := Option.none,
    pointer_grab_active := false, keyboard_grab_active := false }

/-- C6 witness: an already-committed popup gets `POPUP_INVALID_GRAB`;
a popup whose parent is not the topmost of a non-empty chain gets
`NOT_THE_TOPMOST_POPUP`; a popup with a toplevel parent and an empty
chain succeeds, pushing itself on the chain and installing both
grabs. -/
theorem xdg_popup_protocol_grab_spec_witness :
    xdg_popup_protocol_grab { popup_p1 with committed := true } 1 2
        empty_grab = Except.error XdgErr.popupInvalidGrab ∧
    xdg_popup_protocol_grab popup_p1 1 2
        { empty_grab with popups := [30] } =
      Except.error XdgErr.notTheTopmostPopup ∧
    xdg_popup_protocol_grab popup_p1 1 2 empty_grab =
      Except.ok
        ({ popup_p1 with seat := Option.some 2 },
          { empty_grab with
              client := Option.some 1,
              popups := [20],
              pointer_grab_active := true,
              keyboard_grab_active := true }) := by
  refine ⟨?_, ?_, ?_⟩
  · exact (xdg_popup_protocol_grab_spec
      { popup_p1 with committed := true } 1 2 empty_grab).1 rfl
  · exact (xdg_popup_protocol_grab_spec popup_p1 1 2
      { empty_grab with popups := [30] }).2.1 rfl
      (Or.inr ⟨30, [], rfl, by decide⟩)
  · exact (xdg_popup_protocol_grab_spec popup_p1 1 2 empty_grab).2.2 rfl
      (Or.inl ⟨rfl, rfl⟩)

/-- Whether the destroy path posted `NOT_THE_TOPMOST_POPUP`, plus the
resulting grab chain, for the popup branch of `xdg_surface_destroy`. -/
structure PopupDestroyResult where
  error_posted : Bool
  grab : WlrXdgPopupGrab
deriving Repr, DecidableEq

/-- Mirrors the popup branch of `xdg_surface_destroy`: when the popup
holds a grab (`seat` set), destroying it while it is not the topmost of
its chain posts `NOT_THE_TOPMOST_POPUP`; either way it is removed from
the chain, and when the chain empties the grabs still held by this
chain are ended. -/
def xdg_surface_destroy_popup (popup : WlrXdgPopup)
    (grab : WlrXdgPopupGrab) : PopupDestroyResult :=
  match popup.seat with
  | Option.none => { error_posted := false, grab := grab }
  | Option.some _ =>
    let err := xdg_popup_grab_get_topmost grab ≠ Option.some popup.base
    let popups := grab.popups.erase popup.base
    let grab :=
      { grab with
          popups := popups,
          pointer_grab_active :=
            if popups.isEmpty then false else grab.pointer_grab_active,
          keyboard_grab_active :=
            if popups.isEmpty then false else grab.keyboard_grab_active }
    { error_posted := decide err, grab := grab }

/-- C7: destroying a popup that holds a grab posts
`NOT_THE_TOPMOST_POPUP` exactly when it is not the topmost popup of its
chain; destroying the topmost posts nothing and pops it, so destroying
the popups of a chain in reverse creation order (each one topmost when
destroyed) never posts the error. -/
theorem xdg_surface_destroy_popup_spec (popup : WlrXdgPopup)
    (grab : WlrXdgPopupGrab) (s : Nat) :
    (popup.seat = Option.some s →
      grab.popups.head? ≠ Option.some popup.base →
      (xdg_surface_destroy_popup popup grab).error_posted = true) ∧
    (popup.seat = Option.some s →
      ∀ rest, grab.popups = popup.base :: rest →
      (xdg_surface_destroy_popup popup grab).error_posted = false ∧
      (xdg_surface_destroy_popup popup grab).grab.popups = rest) := by
  constructor
  · intro hseat hne
    simp [xdg_surface_destroy_popup, hseat, xdg_popup_grab_get_topmost,
      hne]
  · intro hseat rest hcons
    constructor
    · simp [xdg_surface_destroy_popup, hseat, xdg_popup_grab_get_topmost,
        hcons]
    · simp [xdg_surface_destroy_popup, hseat, hcons, List.erase_cons]

/-- C7 witness: chain `[P2, P1]` (P2 topmost).  Destroying P1 first
posts `NOT_THE_TOPMOST_POPUP`; destroying P2 then P1 (reverse creation
order) posts no error at either step. -/
theorem xdg_surface_destroy_popup_spec_witness :
    (xdg_surface_destroy_popup { popup_p1 with seat := Option.some 2 }
        { empty_grab with popups := [30, 20] }).error_posted = true ∧
    (xdg_surface_destroy_popup { popup_p2 with seat := Option.some 2 }
        { empty_grab with popups := [30, 20] }).error_posted = false ∧
    (xdg_surface_destroy_popup { popup_p2 with seat := Option.some 2 }
        { empty_grab with popups := [30, 20] }).grab.popups = [20] ∧
    (xdg_surface_destroy_popup { popup_p1 with seat := Option.some 2 }
        (xdg_surface_destroy_popup { popup_p2 with seat := Option.some 2 }
          { empty_grab with popups := [30, 20] }).grab).error_posted =
      false := by
  refine ⟨?_, ?_, ?_, ?_⟩
  · exact (xdg_surface_destroy_popup_spec
      { popup_p1 with seat := Option.some 2 }
      { empty_grab with popups := [30, 20] } 2).1 rfl (by decide)
  · exact ((xdg_surface_destroy_popup_spec
      { popup_p2 with seat := Option.some 2 }
      { empty_grab with popups := [30, 20] } 2).2 rfl [20] rfl).1
  · exact ((xdg_surface_destroy_popup_spec
      { popup_p2 with seat := Option.some 2 }
      { empty_grab with popups := [30, 20] } 2).2 rfl [20] rfl).2
  · have hstep : (xdg_surface_destroy_popup
        { popup_p2 with seat := Option.some 2 }
        { empty_grab with popups := [30, 20] }).grab.popups = [20] :=
      ((xdg_surface_destroy_popup_spec
        { popup_p2 with seat := Option.some 2 }
        { empty_grab with popups := [30, 20] } 2).2 rfl [20] rfl).2
    exact ((xdg_surface_destroy_popup_spec
      { popup_p1 with seat := Option.some 2 }
      (xdg_surface_destroy_popup { popup_p2 with seat := Option.some 2 }
        { empty_grab with popups := [30, 20] }).grab 2).2 rfl []
      (by rw [hstep]; rfl)).1

/-- The compositor-facing request signals the toplevel handlers emit. -/
inductive RequestSignal where
  | maximize
  | fullscreen
  | minimize
deriving Repr, DecidableEq

/-- Result of a toplevel protocol handler: the updated role substate and
the request signals emitted, in order. -/
structure ToplevelOpResult where
  toplevel : WlrXdgToplevel
  signals : List RequestSignal
deriving Repr, DecidableEq

/-- Mirrors `xdg_toplevel_protocol_set_max_size`: writes
`next.max_width/height` and emits nothing. -/
def xdg_toplevel_protocol_set_max_size (t : WlrXdgToplevel)
    (width height : Nat) : ToplevelOpResult :=
  { toplevel :=
      { t with next :=
          { t.next with max_width := width, max_height := height } },
    signals := [] }

/-- Mirrors `xdg_toplevel_protocol_set_min_size`: writes
`next.min_width/height` and emits nothing. -/
def xdg_toplevel_protocol_set_min_size (t : WlrXdgToplevel)
    (width height : Nat) : ToplevelOpResult :=
  { toplevel :=
      { t with next :=
          { t.next with min_width := width, min_height := height } },
    signals := [] }

/-- Mirrors `xdg_toplevel_protocol_set_maximized`. -/
def xdg_toplevel_protocol_set_maximized (t : WlrXdgToplevel) :
    ToplevelOpResult :=
  { toplevel := { t with next := { t.next with maximized := true } },
    signals := [.maximize] }

/-- Mirrors `xdg_toplevel_protocol_unset_maximized`. -/
def xdg_toplevel_protocol_unset_maximized (t : WlrXdgToplevel) :
    ToplevelOpResult :=
  { toplevel := { t with next := { t.next with maximized := false } },
    signals := [.maximize] }

/-- Mirrors `xdg_toplevel_protocol_set_fullscreen` (the output argument
only rides along in the emitted event). -/
def xdg_toplevel_protocol_set_fullscreen (t : WlrXdgToplevel) :
    ToplevelOpResult :=
  { toplevel := { t with next := { t.next with fullscreen := true } },
    signals := [.fullscreen] }

/-- Mirrors `xdg_toplevel_protocol_unset_fullscreen`. -/
def xdg_toplevel_protocol_unset_fullscreen (t : WlrXdgToplevel) :
    ToplevelOpResult :=
  { toplevel := { t with next := { t.next with fullscreen := false } },
    signals := [.fullscreen] }

/-- Mirrors `xdg_toplevel_protocol_set_minimized`: emits
`request_minimize` and touches no state at all (there is no minimized
field in the toplevel state). -/
def xdg_toplevel_protocol_set_minimized (t : WlrXdgToplevel) :
    ToplevelOpResult :=
  { toplevel := t, signals := [.minimize] }

/-- C8 counterexample: `set_max_size` emits no request signal at all,
and `set_minimized` leaves every snapshot (including `next`)
unchanged — refuting the claim that every state-class operation both
updates a `next` field and emits its request signal. -/
theorem xdg_toplevel_state_ops_counterexample :
    (xdg_toplevel_protocol_set_max_size tl0 10 20).signals = [] ∧
    (xdg_toplevel_protocol_set_minimized tl0).toplevel = tl0 := by
  decide

/-- C8 amended: `set_maximized` / `unset_maximized` and `set_fullscreen`
/ `unset_fullscreen` update the corresponding `next` flag and emit the
corresponding request signal; `set_max_size` and `set_min_size` update
the `next` size bounds but emit no signal; `set_minimized` emits
`request_minimize` and updates nothing; none of them touches the
`pending` or `current` snapshot. -/
theorem xdg_toplevel_state_ops_amended (t : WlrXdgToplevel)
    (w h : Nat) :
    ((xdg_toplevel_protocol_set_maximized t).toplevel =
        { t with next := { t.next with maximized := true } } ∧
      (xdg_toplevel_protocol_set_maximized t).signals =
        [RequestSignal.maximize]) ∧
    ((xdg_toplevel_protocol_unset_maximized t).toplevel =
        { t with next := { t.next with maximized := false } } ∧
      (xdg_toplevel_protocol_unset_maximized t).signals =
        [RequestSignal.maximize]) ∧
    ((xdg_toplevel_protocol_set_fullscreen t).toplevel =
        { t with next := { t.next with fullscreen := true } } ∧
      (xdg_toplevel_protocol_set_fullscreen t).signals =
        [RequestSignal.fullscreen]) ∧
    ((xdg_toplevel_protocol_unset_fullscreen t).toplevel =
        { t with next := { t.next with fullscreen := false } } ∧
      (xdg_toplevel_protocol_unset_fullscreen t).signals =
        [RequestSignal.fullscreen]) ∧
    ((xdg_toplevel_protocol_set_max_size t w h).toplevel =
        { t with next :=
            { t.next with max_width := w, max_height := h } } ∧
      (xdg_toplevel_protocol_set_max_size t w h).signals = []) ∧
    ((xdg_toplevel_protocol_set_min_size t w h).toplevel =
        { t with next :=
            { t.next with min_width := w, min_height := h } } ∧
      (xdg_toplevel_protocol_set_min_size t w h).signals = []) ∧
    ((xdg_toplevel_protocol_set_minimized t).toplevel = t ∧
      (xdg_toplevel_protocol_set_minimized t).signals =
        [RequestSignal.minimize]) ∧
    (xdg_toplevel_protocol_set_maximized t).toplevel.pending = t.pending ∧
    (xdg_toplevel_protocol_set_maximized t).toplevel.current = t.current ∧
    (xdg_toplevel_protocol_set_max_size t w h).toplevel.pending =
      t.pending ∧
    (xdg_toplevel_protocol_set_max_size t w h).toplevel.current =
      t.current :=
  ⟨⟨rfl, rfl⟩, ⟨rfl, rfl⟩, ⟨rfl, rfl⟩, ⟨rfl, rfl⟩, ⟨rfl, rfl⟩,
    ⟨rfl, rfl⟩, ⟨rfl, rfl⟩, rfl, rfl, rfl, rfl⟩

/-- The per-client ping state: the outstanding ping serial (0 when
none) and the armed one-shot timer's timeout, if armed. -/
structure WlrXdgClientPing where
  ping_serial : Nat
  timer_target_ms : Option Nat
deriving Repr, DecidableEq

/-- Mirrors `wlr_xdg_surface_ping`: a client with a nonzero outstanding
ping serial is not pinged again; otherwise a fresh serial is reserved,
the ping timer armed with the shell's timeout, and a ping event with
the new serial is sent (the returned list). -/
def wlr_xdg_surface_ping (client : WlrXdgClientPing) (fresh : Nat)
    (ping_timeout : Nat) : WlrXdgClientPing × List Nat :=
  if client.ping_serial ≠ 0 then (client, [])
  else
    ({ ping_serial := fresh, timer_target_ms := Option.some ping_timeout },
      [fresh])

/-- C10: pinging a client whose outstanding ping serial is nonzero is a
no-op: the client state (serial and timer) is unchanged and no ping
event is sent. -/
theorem wlr_xdg_surface_ping_already_pinged (client : WlrXdgClientPing)
    (fresh ping_timeout : Nat) (h : client.ping_serial ≠ 0) :
    wlr_xdg_surface_ping client fresh ping_timeout = (client, []) := by
  simp [wlr_xdg_surface_ping, h]

/-- C10 witness: a client with outstanding serial 5 and an armed timer
is left exactly as it is. -/
theorem wlr_xdg_surface_ping_already_pinged_witness :
    wlr_xdg_surface_ping
        { ping_serial := 5, timer_target_ms := Option.some 10000 } 6 10000 =
      ({ ping_serial := 5, timer_target_ms := Option.some 10000 }, []) :=
  wlr_xdg_surface_ping_already_pinged
    { ping_serial := 5, timer_target_ms := Option.some 10000 } 6 10000
    (by decide)

/-- C9: with `anchor = NONE`, `gravity = NONE` and `offset = (0,0)`, the
positioner geometry is the popup size centered on the midpoint of the
anchor rectangle; in particular `size=(10,10)`, `anchor_rect=(0,0,100,100)`
gives `(45,45,10,10)`. -/
theorem xdg_positioner_get_geometry_centered :
    (∀ (rect : WlrBox) (sw sh : Int) (ca : Nat),
      xdg_positioner_get_geometry
        { anchor_rect := rect, anchor := .anchorNone, gravity := .gravityNone,
          constraint_adjustment := ca,
          size_width := sw, size_height := sh,
          offset_x := 0, offset_y := 0 } =
        { x := rect.x + rect.width / 2 - sw / 2,
          y := rect.y + rect.height / 2 - sh / 2,
          width := sw, height := sh }) ∧
    xdg_positioner_get_geometry
      { anchor_rect := { x := 0, y := 0, width := 100, height := 100 },
        anchor := .anchorNone, gravity := .gravityNone,
        constraint_adjustment := 0,
        size_width := 10, size_height := 10,
        offset_x := 0, offset_y := 0 } =
      { x := 45, y := 45, width := 10, height := 10 } := by
  constructor
  · intro rect sw sh ca
    simp [xdg_positioner_get_geometry]
  · decide
